import Mathlib

/-!
Shallow embedding of the CarPriceML repository: the training job
(pipeline/train.py), the prediction service (app/api/main.py) and the
form-based client (app/frontend/streamlit_app.py), together with proofs
of the specification claims about them.
-/

namespace CarPriceML

/-- A scalar cell value as it travels through the system: a JSON or
dataframe cell is a number, a string, or null (None/NaN). -/
inductive Value where
  | null : Value
  | num : Rat → Value
  | str : String → Value
deriving DecidableEq

/-- Column dtypes that pandas read_csv can infer without extra options:
integer, floating, boolean (a column whose every token is a True/False
literal) and object (everything else, in particular string columns). -/
inductive Dtype where
  | int64 : Dtype
  | float64 : Dtype
  | bool : Dtype
  | object : Dtype
deriving DecidableEq

/-- Embeds numpy issubdtype(dtype, number): true exactly for the integer
and floating dtypes; numpy bool and object are not numeric subtypes. -/
def Dtype.isNumber : Dtype → Bool
  | .int64 => true
  | .float64 => true
  | .bool => false
  | .object => false

/-- Embeds the pandas comparison dtype == object. -/
def Dtype.isObject : Dtype → Bool
  | .object => true
  | _ => false

/-- A token that the CSV reader parses as an unsigned integer literal
(simplified model of the pandas tokenizer: a nonempty digit string,
checked on the character list of the token). -/
def isIntToken (s : String) : Bool :=
  decide (s.data.length > 0) && s.data.all Char.isDigit

/-- A token that the CSV reader parses as a simple decimal literal
(simplified: digits and dots only, with at least one digit). -/
def isFloatToken (s : String) : Bool :=
  decide (s.data.length > 0) && s.data.all (fun ch => ch.isDigit || ch == '.')
    && s.data.any Char.isDigit

/-- A token that the pandas C tokenizer treats as a boolean literal. -/
def isBoolToken (s : String) : Bool :=
  s == "True" || s == "False" || s == "TRUE" || s == "FALSE"

/-- Modelled from pandas read_csv dtype inference for one column: all
integer tokens give int64, otherwise all decimal tokens give float64,
otherwise all boolean literals give bool, otherwise object. Simplified
(no signs or exponents), but every dtype it returns is reachable from a
real CSV file. -/
def inferDtype (cells : List String) : Dtype :=
  if cells.all isIntToken then .int64
  else if cells.all isFloatToken then .float64
  else if cells.all isBoolToken then .bool
  else .object

/-- A dataframe column: its name and its inferred dtype. -/
structure Column where
  name : String
  dtype : Dtype
deriving DecidableEq

/-- A dataframe as read from a CSV: named, typed columns plus the rows
of cell values (row i gives the cell of column j at position j). -/
structure Frame where
  cols : List Column
  rows : List (List Value)
deriving DecidableEq

/-- Embeds detect_feature_types of pipeline/train.py: drop the target
column, then collect the names of object-dtype columns as categorical
and the names of numeric-dtype columns as numeric, both in column
order; returns (numeric_cols, categorical_cols). -/
def detect_feature_types (df : Frame) (target : String) : List String × List String :=
  let feature_df := df.cols.filter (fun c => c.name != target)
  let categorical_cols := (feature_df.filter (fun c => c.dtype.isObject)).map Column.name
  let numeric_cols := (feature_df.filter (fun c => c.dtype.isNumber)).map Column.name
  (numeric_cols, categorical_cols)

/-- Traverses a list keeping each element whose value has not been seen
before: auxiliary loop for dedupFirst with the set of already-kept
values carried in an accumulator. -/
def dedupFirstAux {α : Type} [DecidableEq α] (seen : List α) : List α → List α
  | [] => []
  | x :: xs =>
    if x ∈ seen then dedupFirstAux seen xs
    else x :: dedupFirstAux (x :: seen) xs

/-- Keeps the first occurrence of each element and drops later
duplicates: the semantics of pandas DataFrame.drop_duplicates on rows,
and of key insertion order in a Python dict comprehension. -/
def dedupFirst {α : Type} [DecidableEq α] (l : List α) : List α :=
  dedupFirstAux [] l

/-- Auxiliary: a list with pairwise distinct elements, none of which was
seen before, is left unchanged by the deduplication loop. -/
theorem dedupFirstAux_eq_self {α : Type} [DecidableEq α] :
    ∀ (seen l : List α), l.Nodup → (∀ a ∈ l, a ∉ seen) → dedupFirstAux seen l = l
  | _, [], _, _ => rfl
  | seen, x :: xs, h, hseen => by
    have hx : x ∉ xs := (List.nodup_cons.mp h).1
    have hxs : xs.Nodup := (List.nodup_cons.mp h).2
    rw [dedupFirstAux, if_neg (hseen x (List.mem_cons_self x xs))]
    rw [dedupFirstAux_eq_self (x :: seen) xs hxs]
    intro a ha hmem
    rcases List.mem_cons.mp hmem with hax | hain
    · exact hx (hax ▸ ha)
    · exact hseen a (List.mem_cons_of_mem x ha) hain

/-- A list whose elements are pairwise distinct is left unchanged by
duplicate dropping. -/
theorem dedupFirst_eq_self {α : Type} [DecidableEq α]
    (l : List α) (h : l.Nodup) : dedupFirst l = l :=
  dedupFirstAux_eq_self [] l h (fun _ _ hmem => (List.not_mem_nil _ hmem).elim)

/-- The command-line arguments of pipeline/train.py: CSV path, target
column name (default price), test-size fraction (default 0.3), currency
multiplier (default 1.0) and the two output paths. -/
structure TrainArgs where
  csv : String
  target : String
  testSize : Rat
  currencyRate : Rat
  outModel : String
  outMeta : String

/-- The fitted random forest and the sklearn metric computations are
opaque to this development: a training run is parametrised by the three
metric values its evaluation step produces. -/
structure MLOracle where
  rmse : Rat
  mae : Rat
  r2 : Rat

/-- JSON values, for stating which keys the metadata document carries. -/
inductive J where
  | jnum : Rat → J
  | jstr : String → J
  | jarr : List J → J
  | jobj : List (String × J) → J

/-- Observable side effects of a training run, in program order: console
prints, parent-directory creation and the two artifact writes. -/
inductive Effect where
  | print : String → Effect
  | mkdirParent : String → Effect
  | writeModel : String → Effect
  | writeMeta : String → List (String × J) → Effect

/-- The names of the columns of a frame. -/
def colNames (df : Frame) : List String :=
  df.cols.map Column.name

/-- Embeds the cleaning steps of train.py main: drop_duplicates keeps
the first occurrence of each row, then dropna on the target column
removes rows whose target cell is null. The later currency conversion
multiplies the target column only, so it changes neither the row count
nor any feature column and is not replayed here. -/
def cleanedRows (df : Frame) (target : String) : List (List Value) :=
  let rows1 := dedupFirst df.rows
  match df.cols.findIdx? (fun c => c.name == target) with
  | some i => rows1.filter (fun r => r.getD i Value.null != Value.null)
  | none => rows1

/-- Embeds the sklearn train_test_split size computation for a
fractional test_size: the test count is the ceiling of test_size times
the number of rows (sklearn computes ceil of the product). -/
def nTestOf (n : Nat) (ts : Rat) : Nat :=
  (Rat.ceil (ts * (n : Rat))).toNat

/-- The train count is what remains after removing the test rows. -/
def nTrainOf (n : Nat) (ts : Rat) : Nat :=
  n - nTestOf n ts

/-- The executable rational ceiling is bounded by any integer upper
bound of its argument. -/
theorem ratCeil_le {q : Rat} {z : Int} (h : q ≤ (z : Rat)) : q.ceil ≤ z := by
  rw [Rat.ceil]
  split
  · next hden =>
    have hq : (q.num : Rat) = q := Rat.coe_int_num_of_den_eq_one hden
    exact_mod_cast hq ▸ h
  · next hden =>
    rcases eq_or_lt_of_le h with heq | hlt
    · exact absurd (heq ▸ Rat.den_intCast z) hden
    · have hfl : q.num / (q.den : Int) = ⌊q⌋ := (Rat.floor_def).symm
      rw [hfl]
      exact Int.add_one_le_iff.mpr (Int.floor_lt.mpr hlt)

/-- A test fraction of at most one never claims more than all rows. -/
theorem nTestOf_le (n : Nat) (ts : Rat) (h1 : ts ≤ 1) : nTestOf n ts ≤ n := by
  rw [nTestOf]
  have hle : ts * (n : Rat) ≤ ((n : Int) : Rat) := by
    push_cast
    calc ts * (n : Rat) ≤ 1 * (n : Rat) :=
      mul_le_mul_of_nonneg_right h1 (Nat.cast_nonneg n)
    _ = (n : Rat) := one_mul _
  exact Int.toNat_le.mpr (ratCeil_le hle)

/-- Embeds the metadata dict literal of train.py main, with its keys in
source order; the metrics entry is itself an object with keys rmse, mae
and r2. -/
def metadataJson (args : TrainArgs) (numeric_cols categorical_cols : List String)
    (nTrain nTest : Nat) (ml : MLOracle) : List (String × J) :=
  [ ("target", J.jstr args.target),
    ("numeric_features", J.jarr (numeric_cols.map J.jstr)),
    ("categorical_features", J.jarr (categorical_cols.map J.jstr)),
    ("training_rows", J.jnum nTrain),
    ("test_rows", J.jnum nTest),
    ("metrics", J.jobj [("rmse", J.jnum ml.rmse), ("mae", J.jnum ml.mae), ("r2", J.jnum ml.r2)]),
    ("currency_rate", J.jnum args.currencyRate) ]

/-- The console line reporting the evaluation metrics (train.py prints
them with four decimals; the exact float formatting is not replayed). -/
def metricsLine (ml : MLOracle) : String :=
  "RMSE: " ++ toString ml.rmse ++ " MAE: " ++ toString ml.mae ++ " R2: " ++ toString ml.r2

/-- Embeds main of pipeline/train.py as a function from the CSV file
(none when the path does not exist) to an outcome plus the ordered list
of side effects. A raised FileNotFoundError or ValueError becomes an
error outcome, which in Python terminates the process with a nonzero
exit status; both checks happen before any effect, exactly as in the
source, so a failing run has an empty effect list. -/
def trainMain (args : TrainArgs) (csvFile : Option Frame) (ml : MLOracle) :
    Except String Unit × List Effect :=
  match csvFile with
  | none => (Except.error ("CSV not found: " ++ args.csv), [])
  | some df =>
    if args.target ∈ colNames df then
      let n := (cleanedRows df args.target).length
      let nc := detect_feature_types df args.target
      let nTest := nTestOf n args.testSize
      let nTrain := n - nTest
      let md := metadataJson args nc.1 nc.2 nTrain nTest ml
      (Except.ok (),
        [ Effect.print (metricsLine ml),
          Effect.mkdirParent args.outModel,
          Effect.writeModel args.outModel,
          Effect.mkdirParent args.outMeta,
          Effect.writeMeta args.outMeta md,
          Effect.print ("Model saved to: " ++ args.outModel),
          Effect.print ("Metadata saved to: " ++ args.outMeta) ])
    else
      (Except.error ("Target column \"" ++ args.target ++ "\" not in CSV columns: "
          ++ String.intercalate ", " (colNames df)), [])

/-- The metadata document as the service reads it: the two feature name
lists (main.py reads them with meta.get and an empty-list default, so a
document is always observed through exactly these two lists; the other
metadata keys are not consulted by the service). -/
structure Meta where
  numeric_features : List String
  categorical_features : List String
deriving DecidableEq

/-- Embeds expected_cols of the predict endpoint: the numeric feature
names followed by the categorical feature names. -/
def expected_cols (meta : Meta) : List String :=
  meta.numeric_features ++ meta.categorical_features

/-- A feature request: the JSON object POSTed to the predict endpoint,
a finite mapping from feature name to scalar-or-null value. -/
abbrev Features := List (String × Value)

/-- Embeds the Python expression features.get(col, None): the value
stored under the key, or null when the key is absent. -/
def dictGet (features : Features) (col : String) : Value :=
  match features.lookup col with
  | some v => v
  | none => Value.null

/-- Embeds the single-row alignment of the predict endpoint: a dict
comprehension over expected_cols binding each column to
features.get(col, None). Python dict keys keep their first insertion
position and the bound value depends only on the key, so the resulting
row maps each distinct expected column, in first-occurrence order, to
its looked-up value; request keys outside expected_cols never enter the
row. -/
def buildRow (meta : Meta) (features : Features) : List (String × Value) :=
  (dedupFirst (expected_cols meta)).map (fun col => (col, dictGet features col))

/-- The deserialized pipeline artifact, opaque except for its predict
method, which either returns a scalar or raises (an error string). -/
structure Model where
  predictFn : List (String × Value) → Except String Rat

/-- The artifact store seen by the service: each of the two files is
absent (none), present but failing to deserialize (error), or present
and deserializing to its in-memory form (ok). -/
structure Store where
  modelFile : Option (Except String Model)
  metaFile : Option (Except String Meta)

/-- The message raised by load_artifacts when a file is missing. -/
def notFoundMsg : String :=
  "Model or metadata not found. Please train the model first."

/-- Embeds load_artifacts of main.py: raise FileNotFoundError when
either path is missing, then load the model (propagating a joblib
failure), then load the metadata (propagating a json failure). A raised
exception becomes an error value carrying its message. -/
def load_artifacts (s : Store) : Except String (Model × Meta) :=
  match s.modelFile, s.metaFile with
  | none, _ => Except.error notFoundMsg
  | some _, none => Except.error notFoundMsg
  | some mf, some tf =>
    match mf with
    | Except.error e => Except.error e
    | Except.ok model =>
      match tf with
      | Except.error e => Except.error e
      | Except.ok meta => Except.ok (model, meta)

/-- The health endpoint response as a JSON object: status is always
present; the model, features and detail keys are optional, with none
meaning the key is absent from the returned dict. -/
structure HealthResponse where
  status : String
  modelKey : Option String
  features : Option (List String)
  detail : Option String
deriving DecidableEq

/-- Embeds the health endpoint of main.py: try load_artifacts; on
success return status ok, model rf and the concatenated feature lists;
on any exception return status error with the message as detail. The
except clause catches every exception, so the endpoint always returns a
response value. -/
def health (s : Store) : HealthResponse :=
  match load_artifacts s with
  | Except.ok (_, meta) =>
    { status := "ok", modelKey := some "rf",
      features := some (meta.numeric_features ++ meta.categorical_features),
      detail := none }
  | Except.error e =>
    { status := "error", modelKey := none, features := none, detail := some e }

/-- An HTTPException raised by the predict endpoint: a status code and
a detail message. -/
structure HTTPError where
  status_code : Nat
  detail : String
deriving DecidableEq

/-- Embeds the predict endpoint of main.py: load the artifacts,
translating a failure into HTTP 500 with the cause as detail; align the
request to the expected columns; run the model, translating a failure
into HTTP 400 with the prefixed message; on success return the price. -/
def predictEndpoint (s : Store) (features : Features) : Except HTTPError Rat :=
  match load_artifacts s with
  | Except.error e => Except.error { status_code := 500, detail := e }
  | Except.ok (model, meta) =>
    match model.predictFn (buildRow meta features) with
    | Except.error e =>
      Except.error { status_code := 400, detail := "Prediction failed: " ++ e }
    | Except.ok pred => Except.ok pred

/-- The placeholder entry shown first in every selectbox of the
Streamlit form. -/
def placeholderLabel : String :=
  "Sélectionner..."

/-- Embeds the categorical selectboxes of streamlit_app.py (company,
model, edition, fuel, transmission, owner, seller_type): the collected
input is null when the placeholder is still selected, otherwise the
chosen option string. -/
def selectWithPlaceholder (choice : String) : Value :=
  if choice = placeholderLabel then Value.null else Value.str choice

/-- Embeds the numeric selectboxes (year, km_driven, engine_cc,
max_power_bhp, torque_nm, mileage_mpg, seats): the option strings are
formatted from a fixed numeric list and parsed back on selection, so
the collected input is null when the placeholder is selected and the
chosen number otherwise. -/
def numericSelectValue (choice : Option Rat) : Value :=
  match choice with
  | none => Value.null
  | some x => Value.num x

/-- Embeds the free text input for the name field: the collected input
is the entered string (empty by default). -/
def textInputValue (s : String) : Value :=
  Value.str s

/-- Embeds the generic fallback selectbox for categorical features not
explicitly anticipated: its options are the placeholder and Autre; the
placeholder collects null, and Autre collects the empty string. -/
def fallbackSelect (choice : String) : Value :=
  if choice = placeholderLabel then Value.null
  else if choice = "Autre" then Value.str ""
  else Value.str choice

/-- Embeds the Python test v.strip() == empty string: a string strips
to empty exactly when every character is whitespace. -/
def isBlank (s : String) : Bool :=
  s.data.all Char.isWhitespace

/-- Embeds the payload normalization on submission: a value that is a
string and strips to empty becomes null; every other value is passed
through unchanged. -/
def normalizeValue (v : Value) : Value :=
  match v with
  | Value.str s => if isBlank s then Value.null else Value.str s
  | v => v

/-- Embeds the payload dict comprehension: each collected input keeps
its key and is normalized. -/
def payloadOf (inputs : List (String × Value)) : List (String × Value) :=
  inputs.map (fun kv => (kv.1, normalizeValue kv.2))

/-- Looking up a key in a request extended with a different key is the
lookup in the original request. -/
theorem dictGet_cons_ne (k col : String) (v : Value) (features : Features)
    (h : col ≠ k) : dictGet ((k, v) :: features) col = dictGet features col := by
  simp [dictGet, List.lookup, beq_eq_false_iff_ne.mpr h]

/-- C2: the predict endpoint builds a single-row table whose columns are
exactly the metadata numeric features followed by the categorical
features in that order (the metadata invariant making the concatenation
duplicate-free); every expected feature absent from the request maps to
null, and a request key outside the expected list is dropped and has no
effect on the row. -/
theorem C2_predict_row_alignment (meta : Meta) (features : Features)
    (hnodup : (expected_cols meta).Nodup) :
    ((buildRow meta features).map Prod.fst = expected_cols meta)
    ∧ (∀ col, col ∈ expected_cols meta → features.lookup col = none →
        (col, Value.null) ∈ buildRow meta features)
    ∧ (∀ k v, k ∉ expected_cols meta →
        buildRow meta ((k, v) :: features) = buildRow meta features) := by
  refine ⟨?_, ?_, ?_⟩
  · rw [buildRow, dedupFirst_eq_self _ hnodup, List.map_map]
    exact List.map_id _
  · intro col hcol hnone
    rw [buildRow, dedupFirst_eq_self _ hnodup]
    refine List.mem_map.mpr ⟨col, hcol, ?_⟩
    simp [dictGet, hnone]
  · intro k v hk
    rw [buildRow, buildRow, dedupFirst_eq_self _ hnodup]
    apply List.map_congr_left
    intro col hcol
    have hne : col ≠ k := fun hck => hk (hck ▸ hcol)
    rw [dictGet_cons_ne k col v features hne]

/-- C2 witness at a concrete metadata document and request. -/
theorem C2_predict_row_alignment_witness :
    ((buildRow ⟨["year", "km_driven"], ["fuel"]⟩
        [("year", Value.num 2015), ("extra", Value.str "x")]).map Prod.fst =
      expected_cols ⟨["year", "km_driven"], ["fuel"]⟩)
    ∧ (∀ col, col ∈ expected_cols ⟨["year", "km_driven"], ["fuel"]⟩ →
        List.lookup col [("year", Value.num 2015), ("extra", Value.str "x")] = none →
        (col, Value.null) ∈ buildRow ⟨["year", "km_driven"], ["fuel"]⟩
          [("year", Value.num 2015), ("extra", Value.str "x")])
    ∧ (∀ k v, k ∉ expected_cols ⟨["year", "km_driven"], ["fuel"]⟩ →
        buildRow ⟨["year", "km_driven"], ["fuel"]⟩
            ((k, v) :: [("year", Value.num 2015), ("extra", Value.str "x")]) =
          buildRow ⟨["year", "km_driven"], ["fuel"]⟩
            [("year", Value.num 2015), ("extra", Value.str "x")]) :=
  C2_predict_row_alignment ⟨["year", "km_driven"], ["fuel"]⟩
    [("year", Value.num 2015), ("extra", Value.str "x")] (by decide)

/-- C3: the predict endpoint signals its two failure kinds distinctly:
a failing artifact load yields HTTP 500 carrying the cause, a failing
model predict call yields HTTP 400 with the message prefixed by
Prediction failed, and a successful predict call yields the price. -/
theorem C3_predict_error_codes (s : Store) (features : Features) :
    (∀ e, load_artifacts s = Except.error e →
        predictEndpoint s features = Except.error ⟨500, e⟩)
    ∧ (∀ model meta e, load_artifacts s = Except.ok (model, meta) →
        model.predictFn (buildRow meta features) = Except.error e →
        predictEndpoint s features =
          Except.error ⟨400, "Prediction failed: " ++ e⟩)
    ∧ (∀ model meta p, load_artifacts s = Except.ok (model, meta) →
        model.predictFn (buildRow meta features) = Except.ok p →
        predictEndpoint s features = Except.ok p) := by
  refine ⟨?_, ?_, ?_⟩
  · intro e he
    simp [predictEndpoint, he]
  · intro model meta e hload hpred
    simp [predictEndpoint, hload, hpred]
  · intro model meta p hload hpred
    simp [predictEndpoint, hload, hpred]

/-- C3 witness: with no artifact files the endpoint answers HTTP 500
with the not-found cause. -/
theorem C3_predict_error_codes_witness :
    predictEndpoint ⟨none, none⟩ [] = Except.error ⟨500, notFoundMsg⟩ :=
  (C3_predict_error_codes ⟨none, none⟩ []).1 notFoundMsg rfl

/-- C5: a training run whose CSV path does not exist, or whose target
column is absent from the CSV, ends in a descriptive error (a raised
exception, hence a nonzero process exit) with an empty effect list: in
particular neither artifact file is written or modified; both checks
precede every write. -/
theorem C5_train_failure_no_writes (args : TrainArgs) (ml : MLOracle) :
    (trainMain args none ml =
      (Except.error ("CSV not found: " ++ args.csv), []))
    ∧ (∀ df : Frame, args.target ∉ colNames df →
        trainMain args (some df) ml =
          (Except.error ("Target column \"" ++ args.target
              ++ "\" not in CSV columns: "
              ++ String.intercalate ", " (colNames df)), [])) := by
  refine ⟨rfl, ?_⟩
  intro df h
  simp [trainMain, h]

/-- C5 witness at concrete arguments and a concrete frame missing the
price column. -/
theorem C5_train_failure_no_writes_witness :
    (trainMain ⟨"data/cars.csv", "price", 3/10, 1, "models/rf_model.joblib",
        "models/metadata.json"⟩ none ⟨0, 0, 0⟩ =
      (Except.error ("CSV not found: " ++ "data/cars.csv"), []))
    ∧ (∀ df : Frame, "price" ∉ colNames df →
        trainMain ⟨"data/cars.csv", "price", 3/10, 1, "models/rf_model.joblib",
            "models/metadata.json"⟩ (some df) ⟨0, 0, 0⟩ =
          (Except.error ("Target column \"" ++ "price"
              ++ "\" not in CSV columns: "
              ++ String.intercalate ", " (colNames df)), [])) :=
  C5_train_failure_no_writes ⟨"data/cars.csv", "price", 3/10, 1,
    "models/rf_model.joblib", "models/metadata.json"⟩ ⟨0, 0, 0⟩

/-- C4: the health endpoint answers status ok exactly when both
artifact files exist and deserialize; on success it reports the
declared feature names, on failure it reports status error with a
diagnostic message, and being a total function it always returns a
response instead of raising. -/
theorem C4_health_ok_iff (s : Store) :
    ((health s).status = "ok" ↔
      (∃ m, s.modelFile = some (Except.ok m))
        ∧ (∃ t, s.metaFile = some (Except.ok t)))
    ∧ (∀ m t, s.modelFile = some (Except.ok m) →
        s.metaFile = some (Except.ok t) →
        (health s).features = some (t.numeric_features ++ t.categorical_features))
    ∧ ((health s).status ≠ "ok" →
        (health s).status = "error" ∧ ∃ e, (health s).detail = some e)
    ∧ ((health s).status = "ok" ∨ (health s).status = "error") := by
  obtain ⟨mf, tf⟩ := s
  rcases mf with _ | mfe
  · simp [health, load_artifacts]
  · rcases tf with _ | tfe
    · simp [health, load_artifacts]
    · rcases mfe with e | m
      · simp [health, load_artifacts, Except.bind]
      · rcases tfe with e | t
        · simp [health, load_artifacts, Except.bind]
        · simp [health, load_artifacts, Except.bind]

/-- C4 witness: a store holding a deserializable model and metadata
reports ok with the declared feature names. -/
theorem C4_health_ok_iff_witness :
    ((health ⟨some (Except.ok ⟨fun _ => Except.ok 0⟩),
        some (Except.ok ⟨["year"], ["fuel"]⟩)⟩).status = "ok" ↔
      (∃ m, (Store.mk (some (Except.ok ⟨fun _ => Except.ok 0⟩))
          (some (Except.ok ⟨["year"], ["fuel"]⟩))).modelFile = some (Except.ok m))
        ∧ (∃ t, (Store.mk (some (Except.ok ⟨fun _ => Except.ok 0⟩))
            (some (Except.ok ⟨["year"], ["fuel"]⟩))).metaFile = some (Except.ok t)))
    ∧ (∀ m t, (Store.mk (some (Except.ok ⟨fun _ => Except.ok 0⟩))
          (some (Except.ok ⟨["year"], ["fuel"]⟩))).modelFile = some (Except.ok m) →
        (Store.mk (some (Except.ok ⟨fun _ => Except.ok 0⟩))
          (some (Except.ok ⟨["year"], ["fuel"]⟩))).metaFile = some (Except.ok t) →
        (health ⟨some (Except.ok ⟨fun _ => Except.ok 0⟩),
            some (Except.ok ⟨["year"], ["fuel"]⟩)⟩).features =
          some (t.numeric_features ++ t.categorical_features))
    ∧ ((health ⟨some (Except.ok ⟨fun _ => Except.ok 0⟩),
          some (Except.ok ⟨["year"], ["fuel"]⟩)⟩).status ≠ "ok" →
        (health ⟨some (Except.ok ⟨fun _ => Except.ok 0⟩),
            some (Except.ok ⟨["year"], ["fuel"]⟩)⟩).status = "error"
          ∧ ∃ e, (health ⟨some (Except.ok ⟨fun _ => Except.ok 0⟩),
              some (Except.ok ⟨["year"], ["fuel"]⟩)⟩).detail = some e)
    ∧ ((health ⟨some (Except.ok ⟨fun _ => Except.ok 0⟩),
          some (Except.ok ⟨["year"], ["fuel"]⟩)⟩).status = "ok"
        ∨ (health ⟨some (Except.ok ⟨fun _ => Except.ok 0⟩),
            some (Except.ok ⟨["year"], ["fuel"]⟩)⟩).status = "error") :=
  C4_health_ok_iff ⟨some (Except.ok ⟨fun _ => Except.ok 0⟩),
    some (Except.ok ⟨["year"], ["fuel"]⟩)⟩

/-- C8 as amended: an ok health response carries status, model rf, the
feature list and no detail key; an error health response carries only
status and detail, with the model and features keys absent. -/
theorem C8_health_shape (s : Store) :
    ((health s).status = "ok" →
      (health s).modelKey = some "rf"
        ∧ (∃ fs, (health s).features = some fs)
        ∧ (health s).detail = none)
    ∧ ((health s).status = "error" →
      (health s).modelKey = none ∧ (health s).features = none
        ∧ ∃ e, (health s).detail = some e)
    ∧ ((health s).status = "ok" ∨ (health s).status = "error") := by
  rcases hL : load_artifacts s with e | p
  · simp [health, hL]
  · obtain ⟨m, t⟩ := p
    simp [health, hL]

/-- C8 counterexample: with no artifact files the health response has
status error and its model and features keys are absent, so the claimed
body shape with model and features present in every response is false
on the code. -/
theorem C8_health_shape_cex :
    (health ⟨none, none⟩).status = "error"
    ∧ (health ⟨none, none⟩).modelKey = none
    ∧ (health ⟨none, none⟩).features = none :=
  ⟨rfl, rfl, rfl⟩

/-- C8 witness: the amended shape at the empty store. -/
theorem C8_health_shape_witness :
    ((health ⟨none, none⟩).status = "ok" →
      (health ⟨none, none⟩).modelKey = some "rf"
        ∧ (∃ fs, (health ⟨none, none⟩).features = some fs)
        ∧ (health ⟨none, none⟩).detail = none)
    ∧ ((health ⟨none, none⟩).status = "error" →
      (health ⟨none, none⟩).modelKey = none
        ∧ (health ⟨none, none⟩).features = none
        ∧ ∃ e, (health ⟨none, none⟩).detail = some e)
    ∧ ((health ⟨none, none⟩).status = "ok"
        ∨ (health ⟨none, none⟩).status = "error") :=
  C8_health_shape ⟨none, none⟩

/-- C6: two feature requests equal as mappings from name to value (for
example one a permutation of the other) give the same prediction
against the same stored artifacts, because the endpoint reads the
request only through lookups along the metadata column order. -/
theorem C6_predict_key_order_invariance (s : Store) (f1 f2 : Features)
    (h : ∀ k, f1.lookup k = f2.lookup k) :
    predictEndpoint s f1 = predictEndpoint s f2 := by
  have hget : ∀ col, dictGet f1 col = dictGet f2 col := by
    intro col
    rw [dictGet, dictGet, h col]
  have hrow : ∀ meta : Meta, buildRow meta f1 = buildRow meta f2 := by
    intro meta
    rw [buildRow, buildRow]
    apply List.map_congr_left
    intro col _
    rw [hget col]
  rcases hL : load_artifacts s with e | p
  · simp [predictEndpoint, hL]
  · obtain ⟨m, t⟩ := p
    simp [predictEndpoint, hL, hrow t]

/-- C6 witness: swapping the key order of a concrete two-field request
leaves the prediction unchanged. -/
theorem C6_predict_key_order_invariance_witness :
    predictEndpoint ⟨some (Except.ok ⟨fun _ => Except.ok 0⟩),
        some (Except.ok ⟨["year"], ["fuel"]⟩)⟩
      [("year", Value.num 2015), ("fuel", Value.str "Petrol")] =
    predictEndpoint ⟨some (Except.ok ⟨fun _ => Except.ok 0⟩),
        some (Except.ok ⟨["year"], ["fuel"]⟩)⟩
      [("fuel", Value.str "Petrol"), ("year", Value.num 2015)] := by
  apply C6_predict_key_order_invariance
  intro k
  by_cases h1 : k = "year"
  · subst h1
    rfl
  · by_cases h2 : k = "fuel"
    · subst h2
      rfl
    · simp [List.lookup, beq_eq_false_iff_ne.mpr h1, beq_eq_false_iff_ne.mpr h2]

/-- C10: the feature list reported by a successful health check is
exactly the column list, in order, that the predict endpoint aligns
every request row to (under the metadata invariant that the
concatenated feature lists are duplicate-free). -/
theorem C10_health_features_alignment (s : Store) (model : Model) (meta : Meta)
    (features : Features) (hload : load_artifacts s = Except.ok (model, meta))
    (hnodup : (expected_cols meta).Nodup) :
    (health s).features = some ((buildRow meta features).map Prod.fst) := by
  have hcols : (buildRow meta features).map Prod.fst = expected_cols meta := by
    rw [buildRow, dedupFirst_eq_self _ hnodup, List.map_map]
    exact List.map_id _
  rw [hcols]
  simp [health, hload, expected_cols]

/-- C10 witness at a concrete store and request. -/
theorem C10_health_features_alignment_witness :
    (health ⟨some (Except.ok ⟨fun _ => Except.ok 0⟩),
        some (Except.ok ⟨["year"], ["fuel"]⟩)⟩).features =
      some ((buildRow ⟨["year"], ["fuel"]⟩ [("year", Value.num 2015)]).map Prod.fst) :=
  C10_health_features_alignment _ ⟨fun _ => Except.ok 0⟩ ⟨["year"], ["fuel"]⟩
    [("year", Value.num 2015)] rfl (by decide)

unseal Rat.mul Rat.ofScientific in
/-- C7: a successful training run writes a metadata JSON document with
exactly the keys target, numeric_features, categorical_features,
training_rows, test_rows, metrics (with keys rmse, mae, r2) and
currency_rate, in source order; training and test rows sum to the
cleaned row count; and a cleaned count of 100 with test size 0.3 gives
70 training and 30 test rows. -/
theorem C7_metadata_keys_and_counts (args : TrainArgs) (df : Frame) (ml : MLOracle)
    (_h0 : 0 ≤ args.testSize) (h1 : args.testSize ≤ 1)
    (htgt : args.target ∈ colNames df) :
    ((metadataJson args (detect_feature_types df args.target).1
        (detect_feature_types df args.target).2
        (nTrainOf (cleanedRows df args.target).length args.testSize)
        (nTestOf (cleanedRows df args.target).length args.testSize) ml).map Prod.fst =
      ["target", "numeric_features", "categorical_features", "training_rows",
        "test_rows", "metrics", "currency_rate"])
    ∧ (∃ mks, ("metrics", J.jobj mks) ∈ metadataJson args
          (detect_feature_types df args.target).1
          (detect_feature_types df args.target).2
          (nTrainOf (cleanedRows df args.target).length args.testSize)
          (nTestOf (cleanedRows df args.target).length args.testSize) ml
        ∧ mks.map Prod.fst = ["rmse", "mae", "r2"])
    ∧ Effect.writeMeta args.outMeta (metadataJson args
        (detect_feature_types df args.target).1
        (detect_feature_types df args.target).2
        (nTrainOf (cleanedRows df args.target).length args.testSize)
        (nTestOf (cleanedRows df args.target).length args.testSize) ml)
      ∈ (trainMain args (some df) ml).2
    ∧ nTrainOf (cleanedRows df args.target).length args.testSize
        + nTestOf (cleanedRows df args.target).length args.testSize
      = (cleanedRows df args.target).length
    ∧ ((cleanedRows df args.target).length = 100 → args.testSize = (0.3 : Rat) →
        nTrainOf (cleanedRows df args.target).length args.testSize = 70
        ∧ nTestOf (cleanedRows df args.target).length args.testSize = 30) := by
  refine ⟨rfl, ⟨[("rmse", J.jnum ml.rmse), ("mae", J.jnum ml.mae), ("r2", J.jnum ml.r2)],
    ?_, rfl⟩, ?_, ?_, ?_⟩
  · simp [metadataJson]
  · simp [trainMain, htgt, nTrainOf]
  · exact Nat.sub_add_cancel (nTestOf_le _ _ h1)
  · intro h100 hts
    rw [h100, hts]
    exact ⟨by decide, by decide⟩

/-- A 100-row frame with two numeric feature columns, one categorical
feature column and a numeric target, all rows distinct and no null
target cells, matching the end-to-end scenario of the specification. -/
def sample100 : Frame :=
  { cols := [⟨"year", Dtype.int64⟩, ⟨"km_driven", Dtype.int64⟩,
      ⟨"fuel", Dtype.object⟩, ⟨"price", Dtype.float64⟩],
    rows := (List.range 100).map
      (fun i => [Value.num i, Value.num i, Value.str "Petrol", Value.num 1]) }

set_option maxRecDepth 100000 in
unseal Rat.mul Rat.ofScientific in
/-- C7 witness: the 100-row scenario, with the cleaned row count
evaluated to 100, so the final conjunct yields 70 and 30. -/
theorem C7_metadata_keys_and_counts_witness :
    (((metadataJson ⟨"data/cars.csv", "price", 0.3, 1, "models/rf_model.joblib",
          "models/metadata.json"⟩
        (detect_feature_types sample100 "price").1
        (detect_feature_types sample100 "price").2
        (nTrainOf (cleanedRows sample100 "price").length 0.3)
        (nTestOf (cleanedRows sample100 "price").length 0.3) ⟨0, 0, 0⟩).map Prod.fst =
      ["target", "numeric_features", "categorical_features", "training_rows",
        "test_rows", "metrics", "currency_rate"])
    ∧ (∃ mks, ("metrics", J.jobj mks) ∈ metadataJson ⟨"data/cars.csv", "price", 0.3, 1,
          "models/rf_model.joblib", "models/metadata.json"⟩
          (detect_feature_types sample100 "price").1
          (detect_feature_types sample100 "price").2
          (nTrainOf (cleanedRows sample100 "price").length 0.3)
          (nTestOf (cleanedRows sample100 "price").length 0.3) ⟨0, 0, 0⟩
        ∧ mks.map Prod.fst = ["rmse", "mae", "r2"])
    ∧ Effect.writeMeta "models/metadata.json" (metadataJson ⟨"data/cars.csv", "price", 0.3, 1,
        "models/rf_model.joblib", "models/metadata.json"⟩
        (detect_feature_types sample100 "price").1
        (detect_feature_types sample100 "price").2
        (nTrainOf (cleanedRows sample100 "price").length 0.3)
        (nTestOf (cleanedRows sample100 "price").length 0.3) ⟨0, 0, 0⟩)
      ∈ (trainMain ⟨"data/cars.csv", "price", 0.3, 1, "models/rf_model.joblib",
          "models/metadata.json"⟩ (some sample100) ⟨0, 0, 0⟩).2
    ∧ nTrainOf (cleanedRows sample100 "price").length 0.3
        + nTestOf (cleanedRows sample100 "price").length 0.3
      = (cleanedRows sample100 "price").length
    ∧ ((cleanedRows sample100 "price").length = 100 → (0.3 : Rat) = 0.3 →
        nTrainOf (cleanedRows sample100 "price").length 0.3 = 70
        ∧ nTestOf (cleanedRows sample100 "price").length 0.3 = 30))
    ∧ (cleanedRows sample100 "price").length = 100 :=
  ⟨C7_metadata_keys_and_counts
      ⟨"data/cars.csv", "price", 0.3, 1, "models/rf_model.joblib", "models/metadata.json"⟩
      sample100 ⟨0, 0, 0⟩ (by decide) (by decide) (by decide),
    by decide⟩

/-- C1 as amended: training completes whenever the target column is
present, and under the pairwise distinct column names a CSV reader
produces, the detected numeric and categorical feature lists are
disjoint, and together they contain exactly the feature columns whose
dtype is numeric or object; a feature column of any other inferred
dtype, such as the boolean dtype of a True/False CSV column, appears in
neither list. -/
theorem C1_feature_partition (df : Frame) (target : String)
    (hnodup : (colNames df).Nodup) :
    (∀ (args : TrainArgs) (ml : MLOracle), args.target ∈ colNames df →
        (trainMain args (some df) ml).1 = Except.ok ())
    ∧ (∀ n, ¬ (n ∈ (detect_feature_types df target).1
        ∧ n ∈ (detect_feature_types df target).2))
    ∧ (∀ n, (n ∈ (detect_feature_types df target).1
          ∨ n ∈ (detect_feature_types df target).2)
        ↔ ∃ c, c ∈ df.cols ∧ c.name = n ∧ c.name ≠ target
            ∧ (c.dtype.isNumber = true ∨ c.dtype.isObject = true)) := by
  have hcharN : ∀ x, x ∈ (detect_feature_types df target).1 ↔
      ∃ c, (c ∈ df.cols ∧ c.name ≠ target) ∧ c.dtype.isNumber = true ∧ c.name = x := by
    intro x
    simp only [detect_feature_types, List.mem_map, List.mem_filter, bne_iff_ne, ne_eq]
    tauto
  have hcharC : ∀ x, x ∈ (detect_feature_types df target).2 ↔
      ∃ c, (c ∈ df.cols ∧ c.name ≠ target) ∧ c.dtype.isObject = true ∧ c.name = x := by
    intro x
    simp only [detect_feature_types, List.mem_map, List.mem_filter, bne_iff_ne, ne_eq]
    tauto
  refine ⟨?_, ?_, ?_⟩
  · intro args ml hargs
    simp [trainMain, hargs]
  · rintro n ⟨hn, hc⟩
    obtain ⟨c1, ⟨h1mem, _⟩, h1num, h1name⟩ := (hcharN n).mp hn
    obtain ⟨c2, ⟨h2mem, _⟩, h2obj, h2name⟩ := (hcharC n).mp hc
    have heq : c1 = c2 :=
      List.inj_on_of_nodup_map hnodup h1mem h2mem (h1name.trans h2name.symm)
    subst heq
    cases hd : c1.dtype <;> rw [hd] at h1num h2obj <;>
      simp [Dtype.isNumber, Dtype.isObject] at h1num h2obj
  · intro n
    constructor
    · rintro (hn | hn)
      · obtain ⟨c, ⟨hmem, ht⟩, hnum, hname⟩ := (hcharN n).mp hn
        exact ⟨c, hmem, hname, ht, Or.inl hnum⟩
      · obtain ⟨c, ⟨hmem, ht⟩, hobj, hname⟩ := (hcharC n).mp hn
        exact ⟨c, hmem, hname, ht, Or.inr hobj⟩
    · rintro ⟨c, hmem, hname, ht, hnum | hobj⟩
      · exact Or.inl ((hcharN n).mpr ⟨c, ⟨hmem, ht⟩, hnum, hname⟩)
      · exact Or.inr ((hcharC n).mpr ⟨c, ⟨hmem, ht⟩, hobj, hname⟩)

/-- A frame as read from a CSV whose flag column holds the tokens True
and False, which pandas infers as boolean dtype: neither numeric nor
object. -/
def boolColFrame : Frame :=
  { cols := [⟨"year", Dtype.int64⟩, ⟨"flag", Dtype.bool⟩, ⟨"price", Dtype.int64⟩],
    rows := [[Value.num 2015, Value.str "True", Value.num 100],
      [Value.num 2016, Value.str "False", Value.num 200]] }

unseal Rat.mul Rat.ofScientific in
/-- C1 counterexample: on a valid CSV with a boolean column, training
completes, yet the flag feature column belongs to neither detected
list, so the two lists do not cover the feature columns. -/
theorem C1_feature_partition_cex :
    inferDtype ["True", "False"] = Dtype.bool
    ∧ (trainMain ⟨"cars.csv", "price", 0.3, 1, "models/rf_model.joblib",
        "models/metadata.json"⟩ (some boolColFrame) ⟨0, 0, 0⟩).1 = Except.ok ()
    ∧ "flag" ∈ colNames boolColFrame
    ∧ "flag" ≠ "price"
    ∧ "flag" ∉ (detect_feature_types boolColFrame "price").1
    ∧ "flag" ∉ (detect_feature_types boolColFrame "price").2 := by
  refine ⟨by decide, rfl, by decide, by decide, by decide, by decide⟩

/-- C1 witness: the amended partition at the boolean-column frame. -/
theorem C1_feature_partition_witness :
    (∀ (args : TrainArgs) (ml : MLOracle), args.target ∈ colNames boolColFrame →
        (trainMain args (some boolColFrame) ml).1 = Except.ok ())
    ∧ (∀ n, ¬ (n ∈ (detect_feature_types boolColFrame "price").1
        ∧ n ∈ (detect_feature_types boolColFrame "price").2))
    ∧ (∀ n, (n ∈ (detect_feature_types boolColFrame "price").1
          ∨ n ∈ (detect_feature_types boolColFrame "price").2)
        ↔ ∃ c, c ∈ boolColFrame.cols ∧ c.name = n ∧ c.name ≠ "price"
            ∧ (c.dtype.isNumber = true ∨ c.dtype.isObject = true)) :=
  C1_feature_partition boolColFrame "price" (by decide)

/-- C9 as amended: the posted value of a collected field is null
exactly when the field was left on the placeholder, was a blank string,
or was the fallback option Autre (which collects the empty string and
is then normalized to null); any other chosen value is posted as
chosen. -/
theorem C9_payload_normalization (k c : String) (x : Rat)
    (hc : c ≠ placeholderLabel) (hcb : isBlank c = false) :
    payloadOf [(k, selectWithPlaceholder placeholderLabel)] = [(k, Value.null)]
    ∧ payloadOf [(k, selectWithPlaceholder c)] = [(k, Value.str c)]
    ∧ payloadOf [(k, numericSelectValue none)] = [(k, Value.null)]
    ∧ payloadOf [(k, numericSelectValue (some x))] = [(k, Value.num x)]
    ∧ payloadOf [(k, textInputValue "")] = [(k, Value.null)]
    ∧ (∀ s, isBlank s = false → payloadOf [(k, textInputValue s)] = [(k, Value.str s)])
    ∧ payloadOf [(k, fallbackSelect placeholderLabel)] = [(k, Value.null)]
    ∧ payloadOf [(k, fallbackSelect "Autre")] = [(k, Value.null)] := by
  refine ⟨rfl, ?_, rfl, rfl, rfl, ?_, ?_, ?_⟩
  · simp [payloadOf, selectWithPlaceholder, normalizeValue, hc, hcb]
  · intro s hs
    simp [payloadOf, textInputValue, normalizeValue, hs]
  · simp [payloadOf, fallbackSelect, normalizeValue, placeholderLabel]
  · simp [payloadOf, fallbackSelect, normalizeValue, placeholderLabel, isBlank]

/-- C9 counterexample: choosing the affirmative fallback option Autre
is neither a blank string nor the untouched placeholder, yet its posted
value is null rather than the chosen value, so null does not appear
only for blank or unselected fields. -/
theorem C9_payload_normalization_cex :
    "Autre" ≠ placeholderLabel
    ∧ isBlank "Autre" = false
    ∧ fallbackSelect "Autre" ≠ Value.null
    ∧ payloadOf [("edition", fallbackSelect "Autre")] = [("edition", Value.null)]
    ∧ payloadOf [("edition", fallbackSelect "Autre")]
        ≠ [("edition", Value.str "Autre")] := by
  refine ⟨by decide, by decide, by decide, by decide, by decide⟩

/-- C9 witness: the amended normalization at a concrete field, choice
and number. -/
theorem C9_payload_normalization_witness :
    payloadOf [("fuel", selectWithPlaceholder placeholderLabel)] = [("fuel", Value.null)]
    ∧ payloadOf [("fuel", selectWithPlaceholder "Petrol")] = [("fuel", Value.str "Petrol")]
    ∧ payloadOf [("fuel", numericSelectValue none)] = [("fuel", Value.null)]
    ∧ payloadOf [("fuel", numericSelectValue (some 2015))] = [("fuel", Value.num 2015)]
    ∧ payloadOf [("fuel", textInputValue "")] = [("fuel", Value.null)]
    ∧ (∀ s, isBlank s = false →
        payloadOf [("fuel", textInputValue s)] = [("fuel", Value.str s)])
    ∧ payloadOf [("fuel", fallbackSelect placeholderLabel)] = [("fuel", Value.null)]
    ∧ payloadOf [("fuel", fallbackSelect "Autre")] = [("fuel", Value.null)] :=
  C9_payload_normalization "fuel" "Petrol" 2015 (by decide) (by decide)

end CarPriceML
